import Mathlib

/-!
Verification of the CSS selector builder in `src/05-objects-tasks.js`
(repository `core-js-101`), together with the `Rectangle` factory.

The JavaScript `cssSelectorBuilder` is a shared prototype object with own
fields `result : ''`, `order : 0`, `occurEl : 0`, `occurId : 0`,
`occurPE : 0`.  Every add-operation creates a fresh object via
`Object.create(cssSelectorBuilder)` and sets only some own fields on it
(`result`, `order`, and at most one of the occurrence flags); any field
not set on the fresh object is read through the prototype chain from the
shared base, whose fields are never assigned, so such a read yields the
base defaults.  We embed this in two layers:

* a flat value model (`Builder`), where each operation returns the fresh
  object with all five fields resolved (fields the JavaScript leaves
  unset resolve to the base defaults `''`/`0`);
* an instrumented model (`JsObj`) with explicit own-field options and
  prototype lookup, whose operations additionally return the final value
  of the shared base object and of the receiver (and, for `combine`, of
  both argument objects), recording every field assignment the
  JavaScript source performs.

Errors: `checkOrder` throws when `this.order > order` (the order message),
`checkOccur` throws when `occur === 1` (the occurrence message); we model
the two distinct thrown errors by the inductive `Err`.
-/

/-- The two error kinds raised by the builder: the ordering error thrown by
`checkOrder` ("Selector parts should be arranged in the following order:
element, id, class, attribute, pseudo-class, pseudo-element") and the
cardinality error thrown by `checkOccur` ("Element, id and pseudo-element
should not occur more then one time inside the selector"). -/
inductive Err where
  | orderViolation : Err
  | cardinalityViolation : Err
deriving Repr, DecidableEq

/-- The resolved field values of a builder object: `result` is the
accumulated selector fragment, `order` the ordinal of the last part
applied, and `occurEl`, `occurId`, `occurPE` the occurrence flags for
element, id and pseudo-element. -/
structure Builder where
  result : String
  order : Nat
  occurEl : Nat
  occurId : Nat
  occurPE : Nat
deriving Repr, DecidableEq

/-- The shared origin object `cssSelectorBuilder`:
`result: '', order: 0, occurEl: 0, occurId: 0, occurPE: 0`. -/
def cssSelectorBuilder : Builder :=
  { result := "", order := 0, occurEl := 0, occurId := 0, occurPE := 0 }

namespace Css

/-- `checkOrder(order)`: throws the ordering error when
`this.order > order`. -/
def checkOrder (b : Builder) (order : Nat) : Except Err Unit :=
  if b.order > order then .error .orderViolation else .ok ()

/-- `checkOccur(occur)`: throws the cardinality error when `occur === 1`. -/
def checkOccur (occur : Nat) : Except Err Unit :=
  if occur = 1 then .error .cardinalityViolation else .ok ()

/-- `element(value)`: checks order against ordinal 1 and occurrence of
`this.occurEl`, then returns a fresh object with own fields `order = 1`,
`occurEl = 1`, `result = this.result + value`; `occurId` and `occurPE`
are not set on the fresh object and resolve to the base defaults `0`. -/
def element (b : Builder) (value : String) : Except Err Builder := do
  checkOrder b 1
  checkOccur b.occurEl
  pure { result := b.result ++ value, order := 1,
         occurEl := 1, occurId := 0, occurPE := 0 }

/-- `id(value)`: checks order against ordinal 2 and occurrence of
`this.occurId`, then returns a fresh object with own fields `order = 2`,
`occurId = 1`, `result = this.result + '#' + value`; `occurEl` and
`occurPE` resolve to the base defaults `0`. -/
def id (b : Builder) (value : String) : Except Err Builder := do
  checkOrder b 2
  checkOccur b.occurId
  pure { result := b.result ++ "#" ++ value, order := 2,
         occurEl := 0, occurId := 1, occurPE := 0 }

/-- `class(value)` (named `class'` since `class` is a Lean keyword):
checks order against ordinal 3, then returns a fresh object with own
fields `order = 3`, `result = this.result + '.' + value`; all occurrence
flags resolve to the base defaults `0`. -/
def class' (b : Builder) (value : String) : Except Err Builder := do
  checkOrder b 3
  pure { result := b.result ++ "." ++ value, order := 3,
         occurEl := 0, occurId := 0, occurPE := 0 }

/-- `attr(value)`: checks order against ordinal 4, then returns a fresh
object with own fields `order = 4`,
`result = this.result + '[' + value + ']'`; all occurrence flags resolve
to the base defaults `0`. -/
def attr (b : Builder) (value : String) : Except Err Builder := do
  checkOrder b 4
  pure { result := b.result ++ "[" ++ value ++ "]", order := 4,
         occurEl := 0, occurId := 0, occurPE := 0 }

/-- `pseudoClass(value)`: checks order against ordinal 5, then returns a
fresh object with own fields `order = 5`,
`result = this.result + ':' + value`; all occurrence flags resolve to the
base defaults `0`. -/
def pseudoClass (b : Builder) (value : String) : Except Err Builder := do
  checkOrder b 5
  pure { result := b.result ++ ":" ++ value, order := 5,
         occurEl := 0, occurId := 0, occurPE := 0 }

/-- `pseudoElement(value)`: checks order against ordinal 6 and occurrence
of `this.occurPE`, then returns a fresh object with own fields
`order = 6`, `occurPE = 1`, `result = this.result + '::' + value`;
`occurEl` and `occurId` resolve to the base defaults `0`. -/
def pseudoElement (b : Builder) (value : String) : Except Err Builder := do
  checkOrder b 6
  checkOccur b.occurPE
  pure { result := b.result ++ "::" ++ value, order := 6,
         occurEl := 0, occurId := 0, occurPE := 1 }

/-- `combine(selector1, combinator, selector2)`: returns a fresh object
whose only own field is
`result = selector1.result + ' ' + combinator + ' ' + selector2.result`;
`order` and all occurrence flags resolve to the base defaults `0`. -/
def combine (selector1 : Builder) (combinator : String)
    (selector2 : Builder) : Builder :=
  { result := selector1.result ++ " " ++ combinator ++ " "
      ++ selector2.result,
    order := 0, occurEl := 0, occurId := 0, occurPE := 0 }

/-- `stringify()`: returns `this.result`. -/
def stringify (b : Builder) : String :=
  b.result

/-- `true` exactly on a result that is the thrown ordering error. -/
def isOrderErr : Except Err Builder → Bool
  | .error .orderViolation => true
  | _ => false

/-- `true` exactly on a result that is the thrown cardinality error. -/
def isCardErr : Except Err Builder → Bool
  | .error .cardinalityViolation => true
  | _ => false

end Css

/-- An object at the JavaScript level: each field is an own property
(`some v`) or absent (`none`, resolved through the prototype chain). The
derived objects created by `Object.create(cssSelectorBuilder)` have the
shared base as prototype. -/
structure JsObj where
  result? : Option String
  order? : Option Nat
  occurEl? : Option Nat
  occurId? : Option Nat
  occurPE? : Option Nat
deriving Repr, DecidableEq

namespace JsObj

/-- The shared `cssSelectorBuilder` object with all five own properties
(`result: ''`, `order: 0`, `occurEl: 0`, `occurId: 0`, `occurPE: 0`). -/
def baseObj : JsObj :=
  { result? := some "", order? := some 0,
    occurEl? := some 0, occurId? := some 0, occurPE? := some 0 }

/-- Property read `o.result` with prototype fallback to `base`. -/
def resultV (base o : JsObj) : String :=
  o.result?.getD (base.result?.getD "")

/-- Property read `o.order` with prototype fallback to `base`. -/
def orderV (base o : JsObj) : Nat :=
  o.order?.getD (base.order?.getD 0)

/-- Property read `o.occurEl` with prototype fallback to `base`. -/
def occurElV (base o : JsObj) : Nat :=
  o.occurEl?.getD (base.occurEl?.getD 0)

/-- Property read `o.occurId` with prototype fallback to `base`. -/
def occurIdV (base o : JsObj) : Nat :=
  o.occurId?.getD (base.occurId?.getD 0)

/-- Property read `o.occurPE` with prototype fallback to `base`. -/
def occurPEV (base o : JsObj) : Nat :=
  o.occurPE?.getD (base.occurPE?.getD 0)

/-- The builder value an object denotes: every field resolved through the
prototype chain. -/
def view (base o : JsObj) : Builder :=
  { result := resultV base o, order := orderV base o,
    occurEl := occurElV base o, occurId := occurIdV base o,
    occurPE := occurPEV base o }

end JsObj

/-- Outcome of a method call at the JavaScript level: the final value of
the shared base object, the final value of the receiver `this`, and the
returned value (the fresh object, or the thrown error). -/
structure CallResult where
  base : JsObj
  self : JsObj
  ret : Except Err JsObj
deriving Repr

/-- Outcome of a `combine` call: the final values of the base, the
receiver, and both selector arguments, plus the returned value. -/
structure CombineResult where
  base : JsObj
  self : JsObj
  sel1 : JsObj
  sel2 : JsObj
  ret : Except Err JsObj
deriving Repr

namespace JsObj

/-- `checkOrder` reading `this.order` through the prototype chain. -/
def checkOrderJs (base this : JsObj) (order : Nat) : Except Err Unit :=
  if orderV base this > order then .error .orderViolation else .ok ()

/-- `element(value)` at the object level: the only assignments in the
source are `cssObject.order = 1`, `cssObject.occurEl = 1` and
`cssObject.result = ...` on the fresh `Object.create(cssSelectorBuilder)`
object, so the base and the receiver come back unchanged. -/
def elementJs (base this : JsObj) (value : String) : CallResult :=
  { base := base, self := this,
    ret := do
      checkOrderJs base this 1
      Css.checkOccur (occurElV base this)
      pure { result? := some (resultV base this ++ value),
             order? := some 1, occurEl? := some 1,
             occurId? := none, occurPE? := none } }

/-- `id(value)` at the object level: assignments `cssObject.order = 2`,
`cssObject.occurId = 1`, `cssObject.result = ...` on the fresh object
only. -/
def idJs (base this : JsObj) (value : String) : CallResult :=
  { base := base, self := this,
    ret := do
      checkOrderJs base this 2
      Css.checkOccur (occurIdV base this)
      pure { result? := some (resultV base this ++ "#" ++ value),
             order? := some 2, occurEl? := none,
             occurId? := some 1, occurPE? := none } }

/-- `class(value)` at the object level: assignments `cssObject.order = 3`
and `cssObject.result = ...` on the fresh object only. -/
def classJs (base this : JsObj) (value : String) : CallResult :=
  { base := base, self := this,
    ret := do
      checkOrderJs base this 3
      pure { result? := some (resultV base this ++ "." ++ value),
             order? := some 3, occurEl? := none,
             occurId? := none, occurPE? := none } }

/-- `attr(value)` at the object level: assignments `cssObject.order = 4`
and `cssObject.result = ...` on the fresh object only. -/
def attrJs (base this : JsObj) (value : String) : CallResult :=
  { base := base, self := this,
    ret := do
      checkOrderJs base this 4
      pure { result? := some (resultV base this ++ "[" ++ value ++ "]"),
             order? := some 4, occurEl? := none,
             occurId? := none, occurPE? := none } }

/-- `pseudoClass(value)` at the object level: assignments
`cssObject.order = 5` and `cssObject.result = ...` on the fresh object
only. -/
def pseudoClassJs (base this : JsObj) (value : String) : CallResult :=
  { base := base, self := this,
    ret := do
      checkOrderJs base this 5
      pure { result? := some (resultV base this ++ ":" ++ value),
             order? := some 5, occurEl? := none,
             occurId? := none, occurPE? := none } }

/-- `pseudoElement(value)` at the object level: assignments
`cssObject.order = 6`, `cssObject.occurPE = 1`,
`cssObject.result = ...` on the fresh object only. -/
def pseudoElementJs (base this : JsObj) (value : String) : CallResult :=
  { base := base, self := this,
    ret := do
      checkOrderJs base this 6
      Css.checkOccur (occurPEV base this)
      pure { result? := some (resultV base this ++ "::" ++ value),
             order? := some 6, occurEl? := none,
             occurId? := none, occurPE? := some 1 } }

/-- `combine(selector1, combinator, selector2)` at the object level: no
check is performed; the only assignment is `comb.result = ...` on the
fresh object, so `order` and the occurrence flags stay unset on it. -/
def combineJs (base this selector1 : JsObj) (combinator : String)
    (selector2 : JsObj) : CombineResult :=
  { base := base, self := this, sel1 := selector1, sel2 := selector2,
    ret := .ok
      { result? := some (resultV base selector1 ++ " " ++ combinator
          ++ " " ++ resultV base selector2),
        order? := none, occurEl? := none,
        occurId? := none, occurPE? := none } }

/-- `stringify()` at the object level: reads `this.result` through the
prototype chain, assigns nothing. -/
def stringifyJs (base this : JsObj) : JsObj × JsObj × String :=
  (base, this, resultV base this)

end JsObj

/-- With the real shared base, the object-level `element` agrees with the
flat model on the receiver's view: same error, and the returned fresh
object's resolved fields are the flat result. -/
theorem elementJs_agrees (this : JsObj) (v : String) :
    (JsObj.elementJs JsObj.baseObj this v).ret.map
        (JsObj.view JsObj.baseObj) =
      Css.element (JsObj.view JsObj.baseObj this) v := by
  simp only [JsObj.elementJs, Css.element, JsObj.checkOrderJs,
    Css.checkOrder, Css.checkOccur, JsObj.view, JsObj.resultV,
    JsObj.orderV, JsObj.occurElV, JsObj.occurIdV, JsObj.occurPEV,
    JsObj.baseObj, Option.getD_some]
  split <;> split <;> rfl

/-- With the real shared base, the object-level `id` agrees with the flat
model on the receiver's view. -/
theorem idJs_agrees (this : JsObj) (v : String) :
    (JsObj.idJs JsObj.baseObj this v).ret.map
        (JsObj.view JsObj.baseObj) =
      Css.id (JsObj.view JsObj.baseObj this) v := by
  simp only [JsObj.idJs, Css.id, JsObj.checkOrderJs,
    Css.checkOrder, Css.checkOccur, JsObj.view, JsObj.resultV,
    JsObj.orderV, JsObj.occurElV, JsObj.occurIdV, JsObj.occurPEV,
    JsObj.baseObj, Option.getD_some]
  split <;> split <;> rfl

/-- With the real shared base, the object-level `combine` agrees with the
flat model on the views of its arguments. -/
theorem combineJs_agrees (this s1 s2 : JsObj) (c : String) :
    (JsObj.combineJs JsObj.baseObj this s1 c s2).ret.map
        (JsObj.view JsObj.baseObj) =
      .ok (Css.combine (JsObj.view JsObj.baseObj s1) c
        (JsObj.view JsObj.baseObj s2)) := rfl

/-- The record returned by `Rectangle(width, height)`: the two data
properties and the `getArea` method (a closure over the constructor's
parameters). -/
structure RectangleObj where
  height : Int
  width : Int
  getArea : Unit → Int

/-- `Rectangle(width, height)`: returns `{ height, width, getArea() {
return width * height; } }`. -/
def Rectangle (width height : Int) : RectangleObj :=
  { height := height, width := width,
    getArea := fun _ => width * height }

/-- Characterization of `element`: order check first, then occurrence
check, then the fresh object. -/
theorem Css.element_eq (b : Builder) (v : String) :
    Css.element b v =
      if 1 < b.order then .error .orderViolation
      else if b.occurEl = 1 then .error .cardinalityViolation
      else .ok { result := b.result ++ v, order := 1,
                 occurEl := 1, occurId := 0, occurPE := 0 } := by
  by_cases h1 : 1 < b.order <;> by_cases h2 : b.occurEl = 1 <;>
    simp [Css.element, Css.checkOrder, Css.checkOccur, h1, h2] <;> rfl

/-- Characterization of `id`: order check first, then occurrence check,
then the fresh object. -/
theorem Css.id_eq (b : Builder) (v : String) :
    Css.id b v =
      if 2 < b.order then .error .orderViolation
      else if b.occurId = 1 then .error .cardinalityViolation
      else .ok { result := b.result ++ "#" ++ v, order := 2,
                 occurEl := 0, occurId := 1, occurPE := 0 } := by
  by_cases h1 : 2 < b.order <;> by_cases h2 : b.occurId = 1 <;>
    simp [Css.id, Css.checkOrder, Css.checkOccur, h1, h2] <;> rfl

/-- Characterization of `class`: order check, then the fresh object. -/
theorem Css.class_eq (b : Builder) (v : String) :
    Css.class' b v =
      if 3 < b.order then .error .orderViolation
      else .ok { result := b.result ++ "." ++ v, order := 3,
                 occurEl := 0, occurId := 0, occurPE := 0 } := by
  by_cases h1 : 3 < b.order <;>
    simp [Css.class', Css.checkOrder, h1]

/-- Characterization of `attr`: order check, then the fresh object. -/
theorem Css.attr_eq (b : Builder) (v : String) :
    Css.attr b v =
      if 4 < b.order then .error .orderViolation
      else .ok { result := b.result ++ "[" ++ v ++ "]", order := 4,
                 occurEl := 0, occurId := 0, occurPE := 0 } := by
  by_cases h1 : 4 < b.order <;>
    simp [Css.attr, Css.checkOrder, h1]

/-- Characterization of `pseudoClass`: order check, then the fresh
object. -/
theorem Css.pseudoClass_eq (b : Builder) (v : String) :
    Css.pseudoClass b v =
      if 5 < b.order then .error .orderViolation
      else .ok { result := b.result ++ ":" ++ v, order := 5,
                 occurEl := 0, occurId := 0, occurPE := 0 } := by
  by_cases h1 : 5 < b.order <;>
    simp [Css.pseudoClass, Css.checkOrder, h1]

/-- Characterization of `pseudoElement`: order check first, then
occurrence check, then the fresh object. -/
theorem Css.pseudoElement_eq (b : Builder) (v : String) :
    Css.pseudoElement b v =
      if 6 < b.order then .error .orderViolation
      else if b.occurPE = 1 then .error .cardinalityViolation
      else .ok { result := b.result ++ "::" ++ v, order := 6,
                 occurEl := 0, occurId := 0, occurPE := 1 } := by
  by_cases h1 : 6 < b.order <;> by_cases h2 : b.occurPE = 1 <;>
    simp [Css.pseudoElement, Css.checkOrder, Css.checkOccur, h1, h2] <;> rfl

example : Css.id cssSelectorBuilder "main" =
    .ok { result := "#main", order := 2,
          occurEl := 0, occurId := 1, occurPE := 0 } := rfl

example :
    ((Css.id cssSelectorBuilder "main").bind fun b =>
      Css.class' b "container").map Css.stringify =
    .ok "#main.container" := rfl

example :
    ((Css.class' cssSelectorBuilder "a").bind fun b => Css.id b "x") =
    .error Err.orderViolation := rfl

example :
    ((Css.id cssSelectorBuilder "a").bind fun b => Css.id b "x") =
    .error Err.cardinalityViolation := rfl

/-- Claim C1: for every builder `b` and every add-operation with ordinal
`k` (element 1, id 2, class 3, attribute 4, pseudo-class 5,
pseudo-element 6), the call fails with the ordering error exactly when
`k < b.order`; equal ordinal never raises an order error (the equation
families make `isOrderErr` false whenever `k = b.order`).  In particular
`id` after `class` raises the ordering error. -/
theorem claim1_order_violation_iff (b : Builder) (v : String) :
    (Css.isOrderErr (Css.element b v) = decide (1 < b.order)) ∧
    (Css.isOrderErr (Css.id b v) = decide (2 < b.order)) ∧
    (Css.isOrderErr (Css.class' b v) = decide (3 < b.order)) ∧
    (Css.isOrderErr (Css.attr b v) = decide (4 < b.order)) ∧
    (Css.isOrderErr (Css.pseudoClass b v) = decide (5 < b.order)) ∧
    (Css.isOrderErr (Css.pseudoElement b v) = decide (6 < b.order)) ∧
    ((Css.class' cssSelectorBuilder "a").bind (fun c => Css.id c "x")
      = .error Err.orderViolation) := by
  refine ⟨?_, ?_, ?_, ?_, ?_, ?_, rfl⟩
  · rw [Css.element_eq]
    by_cases h1 : 1 < b.order <;> by_cases h2 : b.occurEl = 1 <;>
      simp [h1, h2, Css.isOrderErr]
  · rw [Css.id_eq]
    by_cases h1 : 2 < b.order <;> by_cases h2 : b.occurId = 1 <;>
      simp [h1, h2, Css.isOrderErr]
  · rw [Css.class_eq]
    by_cases h1 : 3 < b.order <;> simp [h1, Css.isOrderErr]
  · rw [Css.attr_eq]
    by_cases h1 : 4 < b.order <;> simp [h1, Css.isOrderErr]
  · rw [Css.pseudoClass_eq]
    by_cases h1 : 5 < b.order <;> simp [h1, Css.isOrderErr]
  · rw [Css.pseudoElement_eq]
    by_cases h1 : 6 < b.order <;> by_cases h2 : b.occurPE = 1 <;>
      simp [h1, h2, Css.isOrderErr]

/-- Counterexample to claim C2: on the lineage `empty.id("a").class("b")`
the id category has already been applied, yet a further `id` call fails
with the ordering error, not the cardinality error (the derived object
created by `class` does not carry the receiver's `occurId` flag, and the
order check runs first and throws). -/
theorem claim2_counterexample :
    ((Css.id cssSelectorBuilder "a").bind (fun b => Css.class' b "b")
      = .ok { result := "#a.b", order := 3,
              occurEl := 0, occurId := 0, occurPE := 0 }) ∧
    (Css.id ({ result := "#a.b", order := 3,
               occurEl := 0, occurId := 0, occurPE := 0 } : Builder) "x"
      = .error Err.orderViolation) ∧
    (Css.isCardErr
      (Css.id ({ result := "#a.b", order := 3, occurEl := 0,
                 occurId := 0, occurPE := 0 } : Builder) "x")
      = false) :=
  ⟨rfl, rfl, rfl⟩

/-- Claim C2 as amended: a "once" operation fails with the cardinality
error exactly when its order check passes and the receiver's own
occurrence flag for that category is set — the flag is carried only by
the builder directly produced by that same operation (later adds and
combine drop it).  `class`, `attr` and `pseudoClass` never raise the
cardinality error; `id` twice in a row raises it on the second call; and
`empty.class("a").class("b").stringify()` succeeds with `.a.b`. -/
theorem claim2_cardinality_flag (b : Builder) (v : String) :
    (Css.isCardErr (Css.element b v)
      = (!decide (1 < b.order) && decide (b.occurEl = 1))) ∧
    (Css.isCardErr (Css.id b v)
      = (!decide (2 < b.order) && decide (b.occurId = 1))) ∧
    (Css.isCardErr (Css.pseudoElement b v)
      = (!decide (6 < b.order) && decide (b.occurPE = 1))) ∧
    (Css.isCardErr (Css.class' b v) = false) ∧
    (Css.isCardErr (Css.attr b v) = false) ∧
    (Css.isCardErr (Css.pseudoClass b v) = false) ∧
    ((Css.id cssSelectorBuilder "a").bind (fun c => Css.id c "b")
      = .error Err.cardinalityViolation) ∧
    (((Css.class' cssSelectorBuilder "a").bind
        (fun c => Css.class' c "b")).map Css.stringify = .ok ".a.b") := by
  refine ⟨?_, ?_, ?_, ?_, ?_, ?_, rfl, rfl⟩
  · rw [Css.element_eq]
    by_cases h1 : 1 < b.order <;> by_cases h2 : b.occurEl = 1 <;>
      simp [h1, h2, Css.isCardErr]
  · rw [Css.id_eq]
    by_cases h1 : 2 < b.order <;> by_cases h2 : b.occurId = 1 <;>
      simp [h1, h2, Css.isCardErr]
  · rw [Css.pseudoElement_eq]
    by_cases h1 : 6 < b.order <;> by_cases h2 : b.occurPE = 1 <;>
      simp [h1, h2, Css.isCardErr]
  · rw [Css.class_eq]
    by_cases h1 : 3 < b.order <;> simp [h1, Css.isCardErr]
  · rw [Css.attr_eq]
    by_cases h1 : 4 < b.order <;> simp [h1, Css.isCardErr]
  · rw [Css.pseudoClass_eq]
    by_cases h1 : 5 < b.order <;> simp [h1, Css.isCardErr]

/-- Counterexample to claim C3: a successful add-operation does not copy
the receiver's other "seen" flags.  `element` on the origin yields a
builder with `occurEl = 1`; a successful `id` on that builder yields a
builder whose `occurEl` is `0` (the prototype default), not the
receiver's `1`. -/
theorem claim3_counterexample :
    (Css.element cssSelectorBuilder "a"
      = .ok { result := "a", order := 1, occurEl := 1,
              occurId := 0, occurPE := 0 }) ∧
    (Css.id ({ result := "a", order := 1, occurEl := 1,
               occurId := 0, occurPE := 0 } : Builder) "x"
      = .ok { result := "a#x", order := 2, occurEl := 0,
              occurId := 1, occurPE := 0 }) ∧
    (({ result := "a", order := 1, occurEl := 1,
        occurId := 0, occurPE := 0 } : Builder).occurEl = 1) ∧
    (({ result := "a#x", order := 2, occurEl := 0,
        occurId := 1, occurPE := 0 } : Builder).occurEl = 0) ∧
    (decide (({ result := "a", order := 1, occurEl := 1,
                occurId := 0, occurPE := 0 } : Builder).occurEl
      = ({ result := "a#x", order := 2, occurEl := 0,
           occurId := 1, occurPE := 0 } : Builder).occurEl) = false) :=
  ⟨rfl, rfl, rfl, rfl, by decide⟩

/-- Claim C3 as amended: when an add-operation succeeds on `b` with
input `v`, the result is the fresh builder whose fragment is `b`'s
fragment concatenated with the category's formatted append (`v`, `#v`,
`.v`, `[v]`, `:v`, `::v`), whose stage is the operation's ordinal, and
whose relevant "seen" flag is set; the other "seen" flags of the result
are the prototype defaults `0`, not copies of the receiver's flags. -/
theorem claim3_success_shape (b : Builder) (v : String) :
    (∀ c, Css.element b v = .ok c →
      c = { result := b.result ++ v, order := 1, occurEl := 1,
            occurId := 0, occurPE := 0 }) ∧
    (∀ c, Css.id b v = .ok c →
      c = { result := b.result ++ "#" ++ v, order := 2, occurEl := 0,
            occurId := 1, occurPE := 0 }) ∧
    (∀ c, Css.class' b v = .ok c →
      c = { result := b.result ++ "." ++ v, order := 3, occurEl := 0,
            occurId := 0, occurPE := 0 }) ∧
    (∀ c, Css.attr b v = .ok c →
      c = { result := b.result ++ "[" ++ v ++ "]", order := 4,
            occurEl := 0, occurId := 0, occurPE := 0 }) ∧
    (∀ c, Css.pseudoClass b v = .ok c →
      c = { result := b.result ++ ":" ++ v, order := 5, occurEl := 0,
            occurId := 0, occurPE := 0 }) ∧
    (∀ c, Css.pseudoElement b v = .ok c →
      c = { result := b.result ++ "::" ++ v, order := 6, occurEl := 0,
            occurId := 0, occurPE := 1 }) := by
  refine ⟨?_, ?_, ?_, ?_, ?_, ?_⟩ <;> intro c h
  · rw [Css.element_eq] at h
    split at h
    · exact nomatch h
    · split at h
      · exact nomatch h
      · exact (Except.ok.inj h).symm
  · rw [Css.id_eq] at h
    split at h
    · exact nomatch h
    · split at h
      · exact nomatch h
      · exact (Except.ok.inj h).symm
  · rw [Css.class_eq] at h
    split at h
    · exact nomatch h
    · exact (Except.ok.inj h).symm
  · rw [Css.attr_eq] at h
    split at h
    · exact nomatch h
    · exact (Except.ok.inj h).symm
  · rw [Css.pseudoClass_eq] at h
    split at h
    · exact nomatch h
    · exact (Except.ok.inj h).symm
  · rw [Css.pseudoElement_eq] at h
    split at h
    · exact nomatch h
    · split at h
      · exact nomatch h
      · exact (Except.ok.inj h).symm

/-- Witness for the amended claim C3: instantiating the `element`
conjunct on the origin builder with input `"a"`. -/
theorem claim3_success_shape_witness :
    ({ result := "a", order := 1, occurEl := 1,
       occurId := 0, occurPE := 0 } : Builder)
      = { result := cssSelectorBuilder.result ++ "a", order := 1,
          occurEl := 1, occurId := 0, occurPE := 0 } :=
  (claim3_success_shape cssSelectorBuilder "a").1
    { result := "a", order := 1, occurEl := 1,
      occurId := 0, occurPE := 0 } rfl

/-- Claim C4: `combine(left, c, right)` returns a builder whose fragment
is `left.result ++ " " ++ c ++ " " ++ right.result` (one space on each
side of the combinator), whose stage is the initial ordinal `0`, and
whose "seen" flags are all `0`; at the object level the fresh object
created by `combine` resolves, through the shared prototype, to exactly
that builder. -/
theorem claim4_combine (left right : Builder) (c : String) :
    (Css.combine left c right
      = { result := left.result ++ " " ++ c ++ " " ++ right.result,
          order := 0, occurEl := 0, occurId := 0, occurPE := 0 }) ∧
    (∀ this s1 s2 : JsObj,
      (JsObj.combineJs JsObj.baseObj this s1 c s2).ret.map
          (JsObj.view JsObj.baseObj)
        = .ok { result := JsObj.resultV JsObj.baseObj s1 ++ " " ++ c
                  ++ " " ++ JsObj.resultV JsObj.baseObj s2,
                order := 0, occurEl := 0, occurId := 0, occurPE := 0 }) :=
  ⟨rfl, fun _ _ _ => rfl⟩

/-- Claim C5: every add-operation and `combine` is pure with respect to
its receiver and arguments.  In the object-level model, which records
every field assignment the source performs, each call returns the shared
base object and the receiver `this` (and, for `combine`, both selector
arguments) exactly as they were; since the origin value is just a
possible value of `this`, it too is never mutated.  A failing call
returns only the thrown error, so it produces no new builder. -/
theorem claim5_purity (base this s1 s2 : JsObj) (v c : String) :
    ((JsObj.elementJs base this v).base = base ∧
     (JsObj.elementJs base this v).self = this) ∧
    ((JsObj.idJs base this v).base = base ∧
     (JsObj.idJs base this v).self = this) ∧
    ((JsObj.classJs base this v).base = base ∧
     (JsObj.classJs base this v).self = this) ∧
    ((JsObj.attrJs base this v).base = base ∧
     (JsObj.attrJs base this v).self = this) ∧
    ((JsObj.pseudoClassJs base this v).base = base ∧
     (JsObj.pseudoClassJs base this v).self = this) ∧
    ((JsObj.pseudoElementJs base this v).base = base ∧
     (JsObj.pseudoElementJs base this v).self = this) ∧
    ((JsObj.combineJs base this s1 c s2).base = base ∧
     (JsObj.combineJs base this s1 c s2).self = this ∧
     (JsObj.combineJs base this s1 c s2).sel1 = s1 ∧
     (JsObj.combineJs base this s1 c s2).sel2 = s2) :=
  ⟨⟨rfl, rfl⟩, ⟨rfl, rfl⟩, ⟨rfl, rfl⟩, ⟨rfl, rfl⟩, ⟨rfl, rfl⟩,
   ⟨rfl, rfl⟩, rfl, rfl, rfl, rfl⟩

/-- Claim C6: `stringify()` returns the accumulated fragment verbatim,
leaves the base object and the receiver unchanged, and is idempotent:
calling it again on the unchanged receiver yields the same string. -/
theorem claim6_stringify (base this : JsObj) (b : Builder) :
    (Css.stringify b = b.result) ∧
    ((JsObj.stringifyJs base this).2.2 = JsObj.resultV base this) ∧
    ((JsObj.stringifyJs base this).1 = base ∧
     (JsObj.stringifyJs base this).2.1 = this) ∧
    ((JsObj.stringifyJs (JsObj.stringifyJs base this).1
        (JsObj.stringifyJs base this).2.1).2.2
      = (JsObj.stringifyJs base this).2.2) :=
  ⟨rfl, rfl, ⟨rfl, rfl⟩, rfl⟩

/-- Claim C7: the two end-to-end chains from the origin builder render
exactly the documented strings. -/
theorem claim7_end_to_end :
    ((((Css.id cssSelectorBuilder "main").bind
        (fun b => Css.class' b "container")).bind
        (fun b => Css.class' b "editable")).map Css.stringify
      = .ok "#main.container.editable") ∧
    ((((Css.element cssSelectorBuilder "a").bind
        (fun b => Css.attr b "href$=\".png\"")).bind
        (fun b => Css.pseudoClass b "focus")).map Css.stringify
      = .ok "a[href$=\".png\"]:focus") :=
  ⟨rfl, rfl⟩

/-- Claim C8: the stage is monotonically non-decreasing along a chain of
successful add-operations — each operation that succeeds on `b` returns
a builder whose stage is at least `b.order`. -/
theorem claim8_stage_monotone (b : Builder) (v : String) :
    (∀ c, Css.element b v = .ok c → b.order ≤ c.order) ∧
    (∀ c, Css.id b v = .ok c → b.order ≤ c.order) ∧
    (∀ c, Css.class' b v = .ok c → b.order ≤ c.order) ∧
    (∀ c, Css.attr b v = .ok c → b.order ≤ c.order) ∧
    (∀ c, Css.pseudoClass b v = .ok c → b.order ≤ c.order) ∧
    (∀ c, Css.pseudoElement b v = .ok c → b.order ≤ c.order) := by
  refine ⟨?_, ?_, ?_, ?_, ?_, ?_⟩ <;> intro c h
  · rw [Css.element_eq] at h
    split at h
    · exact nomatch h
    · split at h
      · exact nomatch h
      · cases Except.ok.inj h
        next h1 _ => exact Nat.le_of_not_lt h1
  · rw [Css.id_eq] at h
    split at h
    · exact nomatch h
    · split at h
      · exact nomatch h
      · cases Except.ok.inj h
        next h1 _ => exact Nat.le_of_not_lt h1
  · rw [Css.class_eq] at h
    split at h
    · exact nomatch h
    · cases Except.ok.inj h
      next h1 => exact Nat.le_of_not_lt h1
  · rw [Css.attr_eq] at h
    split at h
    · exact nomatch h
    · cases Except.ok.inj h
      next h1 => exact Nat.le_of_not_lt h1
  · rw [Css.pseudoClass_eq] at h
    split at h
    · exact nomatch h
    · cases Except.ok.inj h
      next h1 => exact Nat.le_of_not_lt h1
  · rw [Css.pseudoElement_eq] at h
    split at h
    · exact nomatch h
    · split at h
      · exact nomatch h
      · cases Except.ok.inj h
        next h1 _ => exact Nat.le_of_not_lt h1

/-- Witness for claim C8: instantiating the `element` conjunct on the
origin builder with input `"a"`. -/
theorem claim8_stage_monotone_witness :
    cssSelectorBuilder.order
      ≤ ({ result := "a", order := 1, occurEl := 1,
           occurId := 0, occurPE := 0 } : Builder).order :=
  (claim8_stage_monotone cssSelectorBuilder "a").1
    { result := "a", order := 1, occurEl := 1,
      occurId := 0, occurPE := 0 } rfl

/-- Claim C9: `combine` performs no order or cardinality validation and
never raises an error: for every base, receiver, pair of selector
objects and arbitrary combinator string (CSS token or not), the call
returns `ok` with the fresh object, and the returned outcome is neither
the ordering error nor the cardinality error. -/
theorem claim9_combine_total (base this s1 s2 : JsObj) (c : String) :
    ((JsObj.combineJs base this s1 c s2).ret
      = .ok { result? := some (JsObj.resultV base s1 ++ " " ++ c ++ " "
                ++ JsObj.resultV base s2),
              order? := none, occurEl? := none,
              occurId? := none, occurPE? := none }) ∧
    (Css.isOrderErr ((JsObj.combineJs base this s1 c s2).ret.map
        (JsObj.view base)) = false) ∧
    (Css.isCardErr ((JsObj.combineJs base this s1 c s2).ret.map
        (JsObj.view base)) = false) :=
  ⟨rfl, rfl, rfl⟩

/-- Claim C10: `Rectangle(width, height)` returns an object whose
`width` and `height` properties are the given values and whose
`getArea()` method returns `width * height`. -/
theorem claim10_rectangle (width height : Int) :
    ((Rectangle width height).width = width) ∧
    ((Rectangle width height).height = height) ∧
    ((Rectangle width height).getArea () = width * height) :=
  ⟨rfl, rfl, rfl⟩
